import Mathlib

/-!
Shallow embedding of the embed lifecycle / event-bus core of the rev-sdk-js
repository (src/embed/VbrickEmbed.ts, with types from dist/rev-sdk.d.ts).

The runtime is single-threaded and event-driven, so stateful TypeScript code
is embedded as explicit state passing: each method becomes a function from an
`EmbedState` (plus an environment describing what the remote iframe delivers)
to a result and an updated state.  JavaScript `undefined` is modelled with
`Option`; promise outcomes become an explicit outcome type (resolved /
rejected / pending); function references (needed for the reference-equality
semantics of listener removal) are modelled by the inductive `FuncRef`, where
a fresh allocation counter guarantees that every closure created inside
`VbrickEmbed.on` is distinct from every client-supplied callback.

The EventBus implementation file is not part of the given sources (only the
spec describes it), so the bus operations are modelled from the spec; each
such definition carries a doc comment starting with `Modelled from the spec:`.
Everything else is translated directly from src/embed/VbrickEmbed.ts.
-/

namespace RevSDK

/-- Token types, from `TokenType` in dist/rev-sdk.d.ts. -/
inductive TokenType
  | JWT
  | ACCESS_TOKEN
  | GUEST_REGISTRATION
  deriving DecidableEq, Repr

/-- Authentication token, from `VbrickSDKToken` in dist/rev-sdk.d.ts. -/
structure VbrickSDKToken where
  type : TokenType
  value : String
  issuer : String
  deriving DecidableEq, Repr

/-- Player status enum, from `PlayerStatus` in dist/rev-sdk.d.ts. -/
inductive PlayerStatus
  | Initializing
  | Playing
  | Paused
  | Buffering
  | Seeking
  | Ended
  | Error
  deriving DecidableEq, Repr

/-- Subtitles selection, from `ISubtitles` in dist/rev-sdk.d.ts. -/
structure ISubtitles where
  enabled : Bool
  language : Option String := none
  deriving DecidableEq, Repr

/-- The configuration fields of `VbrickEmbedConfig` that the embed core reads.
`none` models a JavaScript `undefined` field.  The remaining options
(dimensions, css class, display flags) only feed the iframe-URL builder and
are irrelevant to the claims. -/
structure VbrickEmbedConfig where
  token : Option VbrickSDKToken := none
  timeoutSeconds : Option Nat := none
  deriving DecidableEq, Repr

/-- The resolved token payload `{ accessToken: token.value }` built by
`initializeToken` (src/embed/VbrickEmbed.ts line 133). -/
structure TokenPayload where
  accessToken : String
  deriving DecidableEq, Repr

/-- `initializeToken` (src/embed/VbrickEmbed.ts lines 124-136): no configured
token resolves with no credential; a token of type other than `ACCESS_TOKEN`
rejects with `'Unsupported token type'`; an access token resolves with
`{ accessToken: token.value }`. -/
def initializeToken (token : Option VbrickSDKToken) :
    Except String (Option TokenPayload) :=
  match token with
  | none => .ok none
  | some t =>
    if t.type ≠ TokenType.ACCESS_TOKEN then
      .error "Unsupported token type"
    else
      .ok (some { accessToken := t.value })

/-- The timeout computation of `initialize` (src/embed/VbrickEmbed.ts line
104): `const timeout = (this.config.timeoutSeconds * 1000) || undefined`.
With `timeoutSeconds` undefined the product is `NaN`, which is falsy, so the
whole expression is `undefined`; with `timeoutSeconds = 0` the product is `0`,
also falsy, so again `undefined`. -/
def handshakeTimeoutMs (timeoutSeconds : Option Nat) : Option Nat :=
  match timeoutSeconds with
  | none => none
  | some n => if n * 1000 = 0 then none else some (n * 1000)

/-- A function reference, as compared by JavaScript reference equality.
`listener id` is a client-supplied callback (identified by an arbitrary
number); `wrapperFn wid target` is the closure `(e) => setTimeout(() =>
listener(e))` allocated by `VbrickEmbed.on` (line 156), with `wid` a fresh
allocation counter so that two wrappers are never the same object; the
`internal*` constructors are the four handlers that `initializeEmbed`
registers (lines 138-150).  Distinct constructors are never reference-equal,
matching the fact that a freshly allocated closure is a new object. -/
inductive FuncRef
  | listener (id : Nat)
  | wrapperFn (wid : Nat) (target : Nat)
  | internalVideoLoaded
  | internalWebcastLoaded
  | internalPlayerStatusChanged
  | internalSubtitlesChanged
  deriving DecidableEq, Repr

/-- Event payloads.  Object payloads (videoLoaded / webcastLoaded metadata)
are modelled as association lists of string fields; numbers that are only
stored and compared (volume) are modelled opaquely by `Nat`. -/
inductive Payload
  | empty
  | obj (kvs : List (String × String))
  | status (s : PlayerStatus)
  | subs (s : ISubtitles)
  | num (n : Nat)
  | msg (m : String)
  | auth (token : Option TokenPayload)
  deriving DecidableEq, Repr

/-- Modelled from the spec: the Event Bus state - local listeners keyed by
event name in registration order, the outbound messages sent to the bound
content window, the locally emitted errors, and the destroyed flag. -/
structure EventBus where
  listeners : List (String × FuncRef) := []
  outbox : List (String × Payload) := []
  localErrors : List (String × String) := []
  destroyed : Bool := false
  deriving DecidableEq, Repr

/-- Modelled from the spec: `EventBus.on` registers a listener for an event
name; multiple listeners per name are permitted. -/
def busOn (e : String) (f : FuncRef) (b : EventBus) : EventBus :=
  { b with listeners := b.listeners ++ [(e, f)] }

/-- Modelled from the spec: `EventBus.off` removes the registrations of `f`
for event `e`, found by reference equality; a no-op if that reference is not
registered. -/
def busOff (e : String) (f : FuncRef) (b : EventBus) : EventBus :=
  { b with listeners := b.listeners.filter (fun p => ¬(p.1 = e ∧ p.2 = f)) }

/-- Modelled from the spec: `EventBus.publish` sends one message to the bound
content window (fire-and-forget); after destruction it is a no-op. -/
def busPublish (e : String) (p : Payload) (b : EventBus) : EventBus :=
  if b.destroyed then b else { b with outbox := b.outbox ++ [(e, p)] }

/-- Modelled from the spec: `EventBus.publishError` publishes a synthetic
error event carrying a fixed diagnostic code. -/
def busPublishError (code : String) (b : EventBus) : EventBus :=
  busPublish "error" (Payload.msg code) b

/-- Modelled from the spec: `EventBus.emitLocalError` triggers purely local
error observers with a message and a cause; nothing is sent over the
channel. -/
def busEmitLocalError (message : String) (cause : String) (b : EventBus) :
    EventBus :=
  { b with localErrors := b.localErrors ++ [(message, cause)] }

/-- Modelled from the spec: `EventBus.destroy` disables further inbound
dispatch and outbound publishing; idempotent. -/
def busDestroy (b : EventBus) : EventBus :=
  { b with destroyed := true }

/-- Promise outcome of `initialize()`: in the deterministic single-threaded
model a promise either settles (resolved / rejected with an error) or stays
pending forever. -/
inductive InitOutcome
  | resolved
  | rejected (err : String)
  | pending
  deriving DecidableEq, Repr

/-- What the remote iframe delivers during the handshake: the `load` event at
some time (in ms), an `error` event at some time, or neither ever. -/
inductive LoadDelivery
  | loadAt (t : Nat)
  | errorAt (t : Nat) (m : String)
  | never
  deriving DecidableEq, Repr

/-- The environment of one `initialize()` run. -/
structure HandshakeEnv where
  loadDelivery : LoadDelivery
  deriving DecidableEq, Repr

/-- Modelled from the spec: the settled outcome of
`awaitEvent('load', 'error', timeout)` - resolves on `load` first, rejects on
`error` first or when the timeout elapses with neither, and with no timeout
configured it never settles if neither event arrives. -/
def awaitLoadResult (d : LoadDelivery) (timeout : Option Nat) : InitOutcome :=
  match d, timeout with
  | .loadAt t, some ms => if ms ≤ t then .rejected "timeout" else .resolved
  | .loadAt _, none => .resolved
  | .errorAt t m, some ms => if ms ≤ t then .rejected "timeout" else .rejected m
  | .errorAt _ m, none => .rejected m
  | .never, some _ => .rejected "timeout"
  | .never, none => .pending

/-- State of one `VbrickEmbed` instance.  `volume` models the private
`_volume` field, which is declared without an initializer and hence starts
`undefined`; `iframe` and `eventBus` are `undefined` until `initialize()`
assigns them; `init` is the memoized initialization promise.  The counters
record how many times the handshake side effects have executed, so that
"exactly once" is provable. -/
structure EmbedState where
  config : VbrickEmbedConfig
  playerStatus : PlayerStatus := PlayerStatus.Initializing
  volume : Option Nat := none
  currentSubtitles : ISubtitles := { enabled := false }
  info : Option (List (String × String)) := none
  iframe : Option Unit := none
  eventBus : Option EventBus := none
  init : Option InitOutcome := none
  nextWrapperId : Nat := 0
  renderCount : Nat := 0
  busConstructCount : Nat := 0
  tokenResolveCount : Nat := 0
  deriving DecidableEq, Repr

/-- A freshly constructed embed (the constructor only computes the iframe URL
and the logger; no handshake work happens before `initialize()`). -/
def freshEmbed (cfg : VbrickEmbedConfig) : EmbedState :=
  { config := cfg }

/-- JavaScript rest destructuring `{status, ...info}` (src/embed/VbrickEmbed.ts
line 143): collects every field of the object except the named one. -/
def objRest (k : String) : List (String × String) → List (String × String)
  | [] => []
  | kv :: rest => if kv.1 = k then objRest k rest else kv :: objRest k rest

/-- Field lookup on an object modelled as an association list. -/
def lookupKey (k : String) : List (String × String) → Option String
  | [] => none
  | kv :: rest => if kv.1 = k then some kv.2 else lookupKey k rest

/-- `initializeEmbed` (src/embed/VbrickEmbed.ts lines 137-151): registers the
four internal state-applying listeners on the bus, in source order. -/
def initializeEmbed (b : EventBus) : EventBus :=
  busOn "subtitlesChanged" FuncRef.internalSubtitlesChanged
    (busOn "playerStatusChanged" FuncRef.internalPlayerStatusChanged
      (busOn "webcastLoaded" FuncRef.internalWebcastLoaded
        (busOn "videoLoaded" FuncRef.internalVideoLoaded b)))

/-- The error-path effects of `initialize().catch` (src/embed/VbrickEmbed.ts
lines 115-121): publish the synthetic `initializationFailed` error to the
remote side, then emit the local error (the `logger.error` call is pure
logging and out of scope). -/
def failEffects (err : String) (b : EventBus) : EventBus :=
  busEmitLocalError "Error loading embed content" err (busPublishError "initializationFailed" b)

/-- The handshake of `initialize` (src/embed/VbrickEmbed.ts lines 106-121):
`Promise.all([initializeToken(), awaitEvent('load','error',timeout)])`.  The
token promise settles synchronously, so when it rejects it is the first
rejection and `Promise.all` rejects with it; otherwise the outcome follows
the load await.  On success of both, `authenticated` is published with the
resolved token; the subsequent `awaitEvent('authChanged','error',timeout)` is
started but its outcome is not part of the returned promise (fire and
forget), so it does not affect the outcome. -/
def runHandshake (env : HandshakeEnv) (cfg : VbrickEmbedConfig)
    (timeout : Option Nat) (b : EventBus) : InitOutcome × EventBus :=
  match initializeToken cfg.token with
  | .error e => (.rejected e, failEffects e b)
  | .ok tok =>
    match awaitLoadResult env.loadDelivery timeout with
    | .resolved => (.resolved, busPublish "authenticated" (Payload.auth tok) b)
    | .rejected err => (.rejected err, failEffects err b)
    | .pending => (.pending, b)

/-- `initialize` (src/embed/VbrickEmbed.ts lines 96-122); named `initializeFn`
because `initialize` is a reserved word in Lean.  If `this.init` is set the
memoized promise is returned unchanged; otherwise the iframe is rendered, the
bus is constructed, `initializeEmbed` registers the internal listeners, and
the handshake runs; the resulting promise is stored in `this.init`.  On a
handshake failure the catch handler forces `playerStatus` to `Error` and runs
`failEffects`. -/
def initializeFn (env : HandshakeEnv) (s : EmbedState) :
    InitOutcome × EmbedState :=
  match s.init with
  | some o => (o, s)
  | none =>
    let res := runHandshake env s.config
      (handshakeTimeoutMs s.config.timeoutSeconds) (initializeEmbed {})
    (res.1,
      { s with
        iframe := some ()
        renderCount := s.renderCount + 1
        eventBus := some res.2
        busConstructCount := s.busConstructCount + 1
        tokenResolveCount := s.tokenResolveCount + 1
        playerStatus :=
          match res.1 with
          | .rejected _ => PlayerStatus.Error
          | _ => s.playerStatus
        init := some res.1 })

/-- The internal state-applying handlers registered by `initializeEmbed`
(src/embed/VbrickEmbed.ts lines 138-150): `videoLoaded` caches the payload as
`info` and sets status `Paused`; `webcastLoaded` caches the payload minus its
`status` field; `playerStatusChanged` stores the payload's status;
`subtitlesChanged` stores the payload.  A handler applied to a payload of a
different shape than its event's is unreachable under the typed event catalog
and leaves the state unchanged. -/
def applyInternalHandler (f : FuncRef) (p : Payload) (s : EmbedState) :
    EmbedState :=
  match f, p with
  | .internalVideoLoaded, .obj kvs =>
    { s with info := some kvs, playerStatus := PlayerStatus.Paused }
  | .internalWebcastLoaded, .obj kvs =>
    { s with info := some (objRest "status" kvs) }
  | .internalPlayerStatusChanged, .status st => { s with playerStatus := st }
  | .internalSubtitlesChanged, .subs sub => { s with currentSubtitles := sub }
  | _, _ => s

/-- What an externally registered listener saw when it was eventually
invoked: its payload together with the embed's derived state at the moment it
ran. -/
structure Observation where
  listenerId : Nat
  payload : Payload
  seenStatus : PlayerStatus
  seenVolume : Option Nat
  deriving DecidableEq, Repr

/-- The single-threaded runtime around one embed: the embed state, the queue
of `setTimeout` callbacks scheduled during the current task, and the record
of external listener invocations. -/
structure Runtime where
  embed : EmbedState
  tasks : List (Nat × Payload) := []
  observations : List Observation := []
  deriving DecidableEq, Repr

/-- Modelled from the spec: inbound dispatch of event `e` with payload `p` to
a listener list, in registration order.  An internal handler applies its
state update synchronously; a wrapper allocated by `VbrickEmbed.on` calls
`setTimeout(() => listener(e))`, which queues the client callback to run
after the current task; a raw client callback registered directly on the bus
(never produced by the embed's public surface) would run synchronously and
observe the state mid-dispatch. -/
def dispatchList (e : String) (p : Payload) :
    List (String × FuncRef) → Runtime → Runtime
  | [], r => r
  | (name, f) :: rest, r =>
    if name = e then
      match f with
      | .wrapperFn _ target =>
        dispatchList e p rest { r with tasks := r.tasks ++ [(target, p)] }
      | .listener target =>
        dispatchList e p rest
          { r with observations := r.observations ++
              [{ listenerId := target, payload := p,
                 seenStatus := r.embed.playerStatus,
                 seenVolume := r.embed.volume }] }
      | f => dispatchList e p rest { r with embed := applyInternalHandler f p r.embed }
    else
      dispatchList e p rest r

/-- Modelled from the spec: one inbound message (already past the
origin/source filter) is dispatched to the current listeners of its event
name; a destroyed bus dispatches nothing. -/
def dispatchEvent (e : String) (p : Payload) (r : Runtime) : Runtime :=
  match r.embed.eventBus with
  | none => r
  | some b => if b.destroyed then r else dispatchList e p b.listeners r

/-- The `setTimeout` queue drains after the current task completes: each
queued client callback runs and observes the embed state as it stands then
(client callbacks only observe; they do not write derived state). -/
def drainTasks (r : Runtime) : Runtime :=
  { r with
    tasks := []
    observations := r.observations ++ r.tasks.map (fun t =>
      { listenerId := t.1, payload := t.2,
        seenStatus := r.embed.playerStatus,
        seenVolume := r.embed.volume }) }

/-- Delivery of one inbound event: the message handler dispatches to all
listeners synchronously, then the timeout callbacks it scheduled run. -/
def deliverEvent (e : String) (p : Payload) (r : Runtime) : Runtime :=
  drainTasks (dispatchEvent e p r)

/-- `VbrickEmbed.on` (src/embed/VbrickEmbed.ts lines 154-157): registers on
the bus a freshly allocated wrapper `(e) => setTimeout(() => listener(e))` -
not the client's listener itself - so that internal updates take effect
before client handlers run.  Before `initialize()` the bus is undefined and
the call would fault; no claim exercises that path, so it is modelled as
leaving the state unchanged. -/
def onFn (e : String) (listenerId : Nat) (s : EmbedState) : EmbedState :=
  match s.eventBus with
  | none => s
  | some b =>
    { s with
      eventBus := some (busOn e (FuncRef.wrapperFn s.nextWrapperId listenerId) b)
      nextWrapperId := s.nextWrapperId + 1 }

/-- `VbrickEmbed.off` (src/embed/VbrickEmbed.ts lines 159-161): forwards the
client's listener reference itself to `EventBus.off`. -/
def offFn (e : String) (listenerId : Nat) (s : EmbedState) : EmbedState :=
  match s.eventBus with
  | none => s
  | some b => { s with eventBus := some (busOff e (FuncRef.listener listenerId) b) }

/-- `destroy` (src/embed/VbrickEmbed.ts lines 181-186): `this.iframe.remove()`
faults with a TypeError when the iframe is still undefined (it is only
assigned inside `initialize()`); otherwise the iframe is detached, the bus is
destroyed, and the memoized promise is cleared (`this.unsubscribes` is never
assigned in the class, so the optional-chained forEach is a no-op). -/
def destroyFn (s : EmbedState) : Except String EmbedState :=
  match s.iframe, s.eventBus with
  | some _, some b =>
    .ok { s with eventBus := some (busDestroy b), init := none }
  | _, _ => .error "TypeError: undefined field access in destroy"

/-- Delivery of the confirmation that `updateToken` awaits after publishing
`authChanged`: the remote `authChanged` arrives, an `error` arrives, or
neither ever does.  The await in `updateToken` (line 193) passes no timeout,
so there is no timeout alternative. -/
inductive ConfirmDelivery
  | confirmed
  | errored (m : String)
  | neverDelivered
  deriving DecidableEq, Repr

/-- `updateToken` (src/embed/VbrickEmbed.ts lines 188-198): first replaces
`this.config.token` wholesale, then resolves the new token, publishes
`authChanged` with it and awaits the remote confirmation; any error on that
path is logged and rethrown, with no rollback of the token field. -/
def updateTokenFn (newToken : VbrickSDKToken) (confirm : ConfirmDelivery)
    (s : EmbedState) : InitOutcome × EmbedState :=
  let s := { s with config := { s.config with token := some newToken } }
  match initializeToken s.config.token with
  | .error e => (.rejected e, s)
  | .ok tok =>
    let s := { s with
      eventBus := s.eventBus.map (busPublish "authChanged" (Payload.auth tok)) }
    match confirm with
    | .confirmed => (.resolved, s)
    | .errored m => (.rejected m, s)
    | .neverDelivered => (.pending, s)

/-- The outbound messages of the embed's bus (empty before the bus exists). -/
def embedOutbox (s : EmbedState) : List (String × Payload) :=
  match s.eventBus with
  | none => []
  | some b => b.outbox

/-- The locally emitted errors of the embed's bus. -/
def embedLocalErrors (s : EmbedState) : List (String × String) :=
  match s.eventBus with
  | none => []
  | some b => b.localErrors

/-- A concrete environment in which the iframe delivers `load` immediately. -/
def stdEnv : HandshakeEnv := { loadDelivery := LoadDelivery.loadAt 0 }

/-- A concrete unauthenticated configuration with no configured timeout. -/
def stdCfg : VbrickEmbedConfig := {}

/-- A concrete embed on which `initialize()` has completed successfully. -/
def stdReadyState : EmbedState := (initializeFn stdEnv (freshEmbed stdCfg)).2

/-- Number of `authenticated` messages in an outbound message list. -/
def countAuth (l : List (String × Payload)) : Nat :=
  (l.filter (fun m => m.1 = "authenticated")).length

theorem busPublish_listeners (e : String) (p : Payload) (b : EventBus) :
    (busPublish e p b).listeners = b.listeners := by
  unfold busPublish; split <;> rfl

theorem failEffects_listeners (err : String) (b : EventBus) :
    (failEffects err b).listeners = b.listeners := by
  unfold failEffects busEmitLocalError busPublishError
  rw [busPublish_listeners]

theorem runHandshake_listeners (env : HandshakeEnv) (cfg : VbrickEmbedConfig)
    (t : Option Nat) (b : EventBus) :
    (runHandshake env cfg t b).2.listeners = b.listeners := by
  unfold runHandshake
  rcases initializeToken cfg.token with e | tok
  · exact failEffects_listeners e b
  · rcases awaitLoadResult env.loadDelivery t with _ | err | _
    · exact busPublish_listeners ..
    · exact failEffects_listeners err b
    · rfl

theorem runHandshake_authCount (env : HandshakeEnv) (cfg : VbrickEmbedConfig)
    (t : Option Nat) :
    countAuth (runHandshake env cfg t (initializeEmbed {})).2.outbox =
      (if (runHandshake env cfg t (initializeEmbed {})).1 = InitOutcome.resolved
        then 1 else 0) := by
  unfold runHandshake
  rcases initializeToken cfg.token with e | tok
  · rfl
  · rcases awaitLoadResult env.loadDelivery t with _ | err | _ <;> rfl

/-- C1: calling `initializeFn` a second time on the same embed instance
returns the same outcome and the same state as the first call (the memoized
promise), and the handshake side effects - iframe creation, Event Bus
construction, internal listener registration, token resolution, and the
authenticated publish when the handshake succeeds - execute exactly once. -/
theorem initialize_idempotent_memoized (env : HandshakeEnv)
    (cfg : VbrickEmbedConfig) :
    initializeFn env (initializeFn env (freshEmbed cfg)).2 =
      initializeFn env (freshEmbed cfg)
    ∧ (initializeFn env (freshEmbed cfg)).2.renderCount = 1
    ∧ (initializeFn env (freshEmbed cfg)).2.busConstructCount = 1
    ∧ (initializeFn env (freshEmbed cfg)).2.tokenResolveCount = 1
    ∧ ∃ b, (initializeFn env (freshEmbed cfg)).2.eventBus = some b
        ∧ b.listeners = (initializeEmbed {}).listeners
        ∧ countAuth b.outbox =
            (if (initializeFn env (freshEmbed cfg)).1 = InitOutcome.resolved
              then 1 else 0) := by
  refine ⟨rfl, rfl, rfl, rfl, ?_⟩
  refine ⟨_, rfl, ?_, ?_⟩
  · exact runHandshake_listeners env cfg (handshakeTimeoutMs cfg.timeoutSeconds)
      (initializeEmbed {})
  · exact runHandshake_authCount env cfg (handshakeTimeoutMs cfg.timeoutSeconds)

/-- C3: with `timeoutSeconds` omitted the code computes
`(undefined * 1000) || undefined = undefined` and applies no timeout at all,
so when neither `load` nor `error` is ever delivered `initialize()` never
settles - it does not reject after a default of 30 seconds. -/
theorem omitted_timeout_means_no_timeout :
    handshakeTimeoutMs none = none
    ∧ (initializeFn { loadDelivery := LoadDelivery.never }
        (freshEmbed { token := none, timeoutSeconds := none })).1 =
        InitOutcome.pending :=
  ⟨rfl, rfl⟩

/-- C7: whenever the handshake fails - the initialization promise rejects
with some error - the resulting state has `playerStatus` forced to `Error`,
a synthetic `initializationFailed` error message was published to the remote
side, and a local error carrying the failure was emitted. -/
theorem handshake_failure_effects (env : HandshakeEnv)
    (cfg : VbrickEmbedConfig) (err : String)
    (h : (initializeFn env (freshEmbed cfg)).1 = InitOutcome.rejected err) :
    (initializeFn env (freshEmbed cfg)).2.playerStatus = PlayerStatus.Error
    ∧ ("error", Payload.msg "initializationFailed") ∈
        embedOutbox (initializeFn env (freshEmbed cfg)).2
    ∧ ("Error loading embed content", err) ∈
        embedLocalErrors (initializeFn env (freshEmbed cfg)).2 := by
  simp only [initializeFn, freshEmbed, embedOutbox, embedLocalErrors] at h ⊢
  rcases htok : initializeToken cfg.token with e | tok <;>
    simp only [runHandshake, htok] at h ⊢
  · simp only [failEffects, busPublishError, busPublish, busEmitLocalError,
      initializeEmbed, busOn] at h ⊢
    cases h
    simp
  · rcases hload : awaitLoadResult env.loadDelivery
        (handshakeTimeoutMs cfg.timeoutSeconds) with _ | e2 | _ <;>
      simp only [hload] at h ⊢
    · cases h
    · simp only [failEffects, busPublishError, busPublish, busEmitLocalError,
        initializeEmbed, busOn] at h ⊢
      cases h
      simp
    · cases h

/-- Witness for C7 at a concrete failing handshake: the iframe reports an
`error` event, so the concrete run shows all three failure effects. -/
theorem handshake_failure_effects_witness :
    (initializeFn { loadDelivery := LoadDelivery.errorAt 0 "boom" }
      (freshEmbed stdCfg)).2.playerStatus = PlayerStatus.Error
    ∧ ("error", Payload.msg "initializationFailed") ∈
        embedOutbox (initializeFn { loadDelivery := LoadDelivery.errorAt 0 "boom" }
          (freshEmbed stdCfg)).2
    ∧ ("Error loading embed content", "boom") ∈
        embedLocalErrors (initializeFn { loadDelivery := LoadDelivery.errorAt 0 "boom" }
          (freshEmbed stdCfg)).2 :=
  handshake_failure_effects { loadDelivery := LoadDelivery.errorAt 0 "boom" }
    stdCfg "boom" (by decide)

/-- C8: token resolution - no configured token resolves with no credential;
an access token resolves with `accessToken := value`; any other token type
rejects with the distinct `'Unsupported token type'` error, and in that case
the whole initialization run publishes no `authenticated` message (no remote
round-trip is attempted). -/
theorem token_resolution_spec (t : VbrickSDKToken) (env : HandshakeEnv) :
    initializeToken none = .ok none
    ∧ (t.type = TokenType.ACCESS_TOKEN →
        initializeToken (some t) = .ok (some { accessToken := t.value }))
    ∧ (t.type ≠ TokenType.ACCESS_TOKEN →
        initializeToken (some t) = .error "Unsupported token type"
        ∧ ∀ p, ("authenticated", p) ∉
            embedOutbox (initializeFn env (freshEmbed { token := some t })).2) := by
  refine ⟨rfl, ?_, ?_⟩
  · intro h
    simp [initializeToken, h]
  · intro h
    have htok : initializeToken (some t) = .error "Unsupported token type" := by
      simp [initializeToken, h]
    refine ⟨htok, ?_⟩
    intro p
    simp only [initializeFn, freshEmbed, embedOutbox, runHandshake, htok]
    simp [failEffects, busPublishError, busPublish, busEmitLocalError,
      initializeEmbed, busOn]

/-- Witness for C8 at a concrete JWT token: resolution rejects with the
distinct error. -/
theorem token_resolution_spec_witness :
    initializeToken (some { type := TokenType.JWT, value := "v", issuer := "i" })
      = .error "Unsupported token type" :=
  ((token_resolution_spec { type := TokenType.JWT, value := "v", issuer := "i" }
    stdEnv).2.2 (by decide)).1

/-- C4: `updateToken T` replaces the stored token with `T` before the remote
confirmation is awaited - in every outcome (success, rejection, or a
confirmation that never arrives) the token field already holds `T` - and when
the awaited confirmation errors, the call rejects rethrowing that error while
the token stays `T` (apply-then-confirm, no rollback). -/
theorem updateToken_apply_then_confirm (T : VbrickSDKToken)
    (confirm : ConfirmDelivery) (s : EmbedState) (m : String) :
    (updateTokenFn T confirm s).2.config.token = some T
    ∧ (T.type = TokenType.ACCESS_TOKEN → confirm = ConfirmDelivery.errored m →
        (updateTokenFn T confirm s).1 = InitOutcome.rejected m) := by
  constructor
  · simp only [updateTokenFn, initializeToken]
    split
    · rfl
    · rcases confirm with _ | m2 | _ <;> rfl
  · intro hT hc
    subst hc
    simp [updateTokenFn, initializeToken, hT]

/-- Witness for C4 at a concrete refresh whose confirmation errors: the token
field holds the new token and the call rejects with the confirmation error. -/
theorem updateToken_apply_then_confirm_witness :
    (updateTokenFn { type := TokenType.ACCESS_TOKEN, value := "t2", issuer := "i" }
      (ConfirmDelivery.errored "denied") stdReadyState).2.config.token =
      some { type := TokenType.ACCESS_TOKEN, value := "t2", issuer := "i" }
    ∧ (updateTokenFn { type := TokenType.ACCESS_TOKEN, value := "t2", issuer := "i" }
        (ConfirmDelivery.errored "denied") stdReadyState).1 =
        InitOutcome.rejected "denied" :=
  ⟨(updateToken_apply_then_confirm _ _ stdReadyState "denied").1,
   (updateToken_apply_then_confirm _ _ stdReadyState "denied").2 rfl rfl⟩

/-- C2: evaluation at the failing input - after `on('playerStatusChanged', L)`
followed by `off('playerStatusChanged', L)` with the very same listener
reference, a later `playerStatusChanged` occurrence still invokes `L`:
`on` registered a fresh wrapper closure on the bus, and `off` forwarded the
raw listener reference, which matches nothing under reference equality, so
the registration was not removed. -/
theorem off_does_not_remove_listener :
    (deliverEvent "playerStatusChanged" (Payload.status PlayerStatus.Playing)
      { embed := offFn "playerStatusChanged" 0
          (onFn "playerStatusChanged" 0 stdReadyState) }).observations =
      [{ listenerId := 0, payload := Payload.status PlayerStatus.Playing,
         seenStatus := PlayerStatus.Playing, seenVolume := none }] := by
  decide

/-- C9: evaluation at the failing input - `initializeEmbed` registers no
`volumeChanged` handler and the private `_volume` field is never assigned, so
after a `volumeChanged` event is delivered on the bus the `volume` getter
still returns `undefined` rather than the event's value. -/
theorem volumeChanged_not_applied :
    (deliverEvent "volumeChanged" (Payload.num 5)
      { embed := stdReadyState }).embed.volume = none
    ∧ stdReadyState.volume = none := by
  exact ⟨by decide, rfl⟩

theorem lookupKey_objRest_self (k : String) :
    ∀ l, lookupKey k (objRest k l) = none := by
  intro l
  induction l with
  | nil => rfl
  | cons kv rest ih =>
    by_cases h : kv.1 = k <;> simp [objRest, lookupKey, h, ih]

theorem lookupKey_objRest_other (k k0 : String) (h : k ≠ k0) :
    ∀ l, lookupKey k (objRest k0 l) = lookupKey k l := by
  intro l
  induction l with
  | nil => rfl
  | cons kv rest ih =>
    by_cases h1 : kv.1 = k0
    · have h2 : kv.1 ≠ k := by rw [h1]; exact Ne.symm h
      simp [objRest, lookupKey, h1, h2, ih, Ne.symm h]
    · by_cases h2 : kv.1 = k <;>
        simp [objRest, lookupKey, h1, h2, ih, h, Ne.symm h]

/-- C6: after a `webcastLoaded` event, the cached `info` is the payload with
its `status` field removed: the cached object has no `status` field, and
every field other than `status` reads exactly as in the payload. -/
theorem webcastLoaded_strips_status (kvs : List (String × String))
    (k : String) :
    (deliverEvent "webcastLoaded" (Payload.obj kvs)
      { embed := stdReadyState }).embed.info = some (objRest "status" kvs)
    ∧ lookupKey "status" (objRest "status" kvs) = none
    ∧ (k ≠ "status" →
        lookupKey k (objRest "status" kvs) = lookupKey k kvs) := by
  refine ⟨rfl, lookupKey_objRest_self "status" kvs, ?_⟩
  intro h
  exact lookupKey_objRest_other k "status" h kvs

/-- Witness for C6 at the concrete payload of the claim: the cached info has
`title = 'X'` and no `status` field. -/
theorem webcastLoaded_strips_status_witness :
    lookupKey "title" (objRest "status" [("status", "InProgress"), ("title", "X")])
      = lookupKey "title" [("status", "InProgress"), ("title", "X")]
    ∧ lookupKey "status" (objRest "status" [("status", "InProgress"), ("title", "X")])
      = none
    ∧ lookupKey "title" [("status", "InProgress"), ("title", "X")] = some "X" :=
  ⟨(webcastLoaded_strips_status [("status", "InProgress"), ("title", "X")]
      "title").2.2 (by decide),
   (webcastLoaded_strips_status [("status", "InProgress"), ("title", "X")]
      "title").2.1,
   by decide⟩

/-- C10: on an embed on which `initializeFn` has never run, `destroy` faults
(the iframe field is still undefined); once `initializeFn` has run, `destroy`
succeeds, and destroying again still succeeds (idempotent, non-throwing only
after initialization). -/
theorem destroy_before_init_throws (cfg : VbrickEmbedConfig)
    (env : HandshakeEnv) :
    (∃ e, destroyFn (freshEmbed cfg) = .error e)
    ∧ ∃ s1, destroyFn (initializeFn env (freshEmbed cfg)).2 = .ok s1
        ∧ ∃ s2, destroyFn s1 = .ok s2 :=
  ⟨⟨_, rfl⟩, _, rfl, _, rfl⟩

/-- True exactly on raw client callbacks (which the embed's public surface
never places on the bus). -/
def isRaw : FuncRef → Bool
  | .listener _ => true
  | _ => false

/-- A bus in which the internal `playerStatusChanged` handler is registered,
no raw client callback sits directly on the bus, and the bus is live - the
shape every bus reachable through the embed's public surface has. -/
def goodBus (b : EventBus) : Prop :=
  ("playerStatusChanged", FuncRef.internalPlayerStatusChanged) ∈ b.listeners
  ∧ (∀ q ∈ b.listeners, isRaw q.2 = false)
  ∧ b.destroyed = false

/-- A sequence of `on` registrations applied in order. -/
def regsApply (regs : List (String × Nat)) (s : EmbedState) : EmbedState :=
  regs.foldl (fun s r => onFn r.1 r.2 s) s

/-- Delivery of one `playerStatusChanged` occurrence to an initialized embed
carrying an arbitrary batch of prior external registrations. -/
def statusDelivery (regs : List (String × Nat)) (v : PlayerStatus) : Runtime :=
  deliverEvent "playerStatusChanged" (Payload.status v)
    { embed := regsApply regs stdReadyState }

theorem onFn_good (e : String) (lid : Nat) (s : EmbedState)
    (h : ∃ b, s.eventBus = some b ∧ goodBus b) :
    ∃ b, (onFn e lid s).eventBus = some b ∧ goodBus b := by
  obtain ⟨b, hb, hmem, hraw, hdes⟩ := h
  refine ⟨busOn e (FuncRef.wrapperFn s.nextWrapperId lid) b, by simp [onFn, hb],
    ?_, ?_, ?_⟩
  · simp only [busOn, List.mem_append]
    exact Or.inl hmem
  · intro q hq
    simp only [busOn, List.mem_append, List.mem_singleton] at hq
    rcases hq with hq | hq
    · exact hraw q hq
    · subst hq; rfl
  · exact hdes

theorem regsApply_good (regs : List (String × Nat)) :
    ∀ s : EmbedState, (∃ b, s.eventBus = some b ∧ goodBus b) →
      ∃ b, (regsApply regs s).eventBus = some b ∧ goodBus b := by
  induction regs with
  | nil => intro s h; exact h
  | cons r rest ih =>
    intro s h
    have h2 := onFn_good r.1 r.2 s h
    simpa [regsApply, List.foldl_cons] using ih (onFn r.1 r.2 s) h2

theorem dispatchList_status_preserved (v : PlayerStatus) :
    ∀ (l : List (String × FuncRef)) (r : Runtime),
      r.embed.playerStatus = v →
      (dispatchList "playerStatusChanged" (Payload.status v) l r).embed.playerStatus
        = v := by
  intro l
  induction l with
  | nil => intro r h; exact h
  | cons q rest ih =>
    intro r h
    rcases q with ⟨name, f⟩
    by_cases hn : name = "playerStatusChanged"
    · subst hn
      cases f <;> simp only [dispatchList, if_pos rfl] <;>
        exact ih _ (by simp [applyInternalHandler, h])
    · simpa only [dispatchList, if_neg hn] using ih r h

theorem dispatchList_status_sets (v : PlayerStatus) :
    ∀ (l : List (String × FuncRef)) (r : Runtime),
      ("playerStatusChanged", FuncRef.internalPlayerStatusChanged) ∈ l →
      (dispatchList "playerStatusChanged" (Payload.status v) l r).embed.playerStatus
        = v := by
  intro l
  induction l with
  | nil => intro r h; cases h
  | cons q rest ih =>
    intro r h
    rcases List.mem_cons.mp h with h1 | h1
    · subst h1
      simp only [dispatchList, if_pos rfl]
      exact dispatchList_status_preserved v rest _ rfl
    · rcases q with ⟨name, f⟩
      by_cases hn : name = "playerStatusChanged"
      · subst hn
        cases f <;> simp only [dispatchList, if_pos rfl] <;> exact ih _ h1
      · simpa only [dispatchList, if_neg hn] using ih r h1

theorem dispatchList_no_obs (e : String) (p : Payload) :
    ∀ (l : List (String × FuncRef)) (r : Runtime),
      (∀ q ∈ l, isRaw q.2 = false) →
      (dispatchList e p l r).observations = r.observations := by
  intro l
  induction l with
  | nil => intro r _; rfl
  | cons q rest ih =>
    intro r h
    have hrest : ∀ q ∈ rest, isRaw q.2 = false :=
      fun q hq => h q (List.mem_cons_of_mem _ hq)
    rcases q with ⟨name, f⟩
    by_cases hn : name = e
    · subst hn
      cases f with
      | listener t =>
        have hc := h _ (List.mem_cons_self _ _)
        simp [isRaw] at hc
      | wrapperFn wid target =>
        simp only [dispatchList, if_pos rfl]; exact ih _ hrest
      | internalVideoLoaded =>
        simp only [dispatchList, if_pos rfl]; exact ih _ hrest
      | internalWebcastLoaded =>
        simp only [dispatchList, if_pos rfl]; exact ih _ hrest
      | internalPlayerStatusChanged =>
        simp only [dispatchList, if_pos rfl]; exact ih _ hrest
      | internalSubtitlesChanged =>
        simp only [dispatchList, if_pos rfl]; exact ih _ hrest
    · simpa only [dispatchList, if_neg hn] using ih r hrest

theorem dispatchList_tasks_payload (e : String) (p : Payload) :
    ∀ (l : List (String × FuncRef)) (r : Runtime),
      (∀ t ∈ r.tasks, t.2 = p) →
      ∀ t ∈ (dispatchList e p l r).tasks, t.2 = p := by
  intro l
  induction l with
  | nil => intro r h; exact h
  | cons q rest ih =>
    intro r h
    rcases q with ⟨name, f⟩
    by_cases hn : name = e
    · subst hn
      cases f <;> simp only [dispatchList, if_pos rfl] <;> apply ih <;>
        try exact h
      intro t ht
      simp only [List.mem_append, List.mem_singleton] at ht
      rcases ht with ht | ht
      · exact h t ht
      · subst ht; rfl
    · simpa only [dispatchList, if_neg hn] using ih r h

/-- C5: for a `playerStatusChanged` occurrence delivered after any sequence
of external `on` registrations, the internal state-applying handler completes
first: the embed's status equals the event's new value after delivery, and
every externally registered listener invoked for that occurrence observed the
already-updated status (its invocation was deferred past the synchronous
internal dispatch). -/
theorem internal_before_external (regs : List (String × Nat))
    (v : PlayerStatus) :
    (statusDelivery regs v).embed.playerStatus = v
    ∧ ∀ obs ∈ (statusDelivery regs v).observations,
        obs.seenStatus = v ∧ obs.payload = Payload.status v := by
  obtain ⟨b, hb, hmem, hraw, hdes⟩ :=
    regsApply_good regs stdReadyState ⟨_, rfl, by decide, by decide, rfl⟩
  have hdisp :
      statusDelivery regs v =
        drainTasks (dispatchList "playerStatusChanged" (Payload.status v)
          b.listeners { embed := regsApply regs stdReadyState }) := by
    simp only [statusDelivery, deliverEvent, dispatchEvent, hb, hdes,
      Bool.false_eq_true, if_false]
  rw [hdisp]
  set r1 := dispatchList "playerStatusChanged" (Payload.status v)
    b.listeners { embed := regsApply regs stdReadyState } with hr1
  have hstat : r1.embed.playerStatus = v :=
    dispatchList_status_sets v b.listeners _ hmem
  have hobs : r1.observations = [] :=
    dispatchList_no_obs "playerStatusChanged" (Payload.status v) b.listeners _
      hraw
  have htask : ∀ t ∈ r1.tasks, t.2 = Payload.status v :=
    dispatchList_tasks_payload "playerStatusChanged" (Payload.status v)
      b.listeners _ (by intro t ht; cases ht)
  refine ⟨hstat, ?_⟩
  intro obs hob
  simp only [drainTasks, hobs, List.nil_append, List.mem_map] at hob
  obtain ⟨t, ht, hteq⟩ := hob
  subst hteq
  exact ⟨hstat, htask t ht⟩

/-- Witness for C5 at one concrete registration: the externally registered
listener number 7 is invoked for the occurrence and saw the updated status. -/
theorem internal_before_external_witness :
    ({ listenerId := 7, payload := Payload.status PlayerStatus.Playing,
       seenStatus := PlayerStatus.Playing, seenVolume := none } : Observation)
      ∈ (statusDelivery [("playerStatusChanged", 7)] PlayerStatus.Playing).observations
    ∧ ({ listenerId := 7, payload := Payload.status PlayerStatus.Playing,
         seenStatus := PlayerStatus.Playing, seenVolume := none } :
        Observation).seenStatus = PlayerStatus.Playing :=
  ⟨by decide,
   ((internal_before_external [("playerStatusChanged", 7)]
      PlayerStatus.Playing).2 _ (by decide)).1⟩

end RevSDK
